import Mathlib

/-!
Verification of the ACDGP document-store access layer
(`src/config.py`, `src/firebase_manager.py`).

The Python source is shallowly embedded: the Firestore driver is abstracted
into injected behaviors (a `store` function giving each attempt's result, a
filesystem predicate `pathExists`), exceptions become explicit error values,
and each stateful operation returns an explicit trace (commit calls issued,
attempts performed, backoff sleeps requested, log entries written).
-/

set_option autoImplicit false

/-- Document field payloads: Python dicts are embedded as ordered
association lists with first-match lookup (Python dicts have unique keys). -/
abbrev Fields := List (String × String)

/-- First-match lookup of a key, the observable behavior of `d[k]`. -/
def getField (fs : Fields) (k : String) : Option String :=
  (fs.find? (fun p => p.1 == k)).map Prod.snd

/-- Python `d[k] = v` on a dict embedded as an assoc list: if the key is
present its value is replaced in place, otherwise the pair is appended. -/
def setItem (fs : Fields) (k v : String) : Fields :=
  if (fs.map Prod.fst).contains k then
    fs.map (fun p => if p.1 == k then (k, v) else p)
  else
    fs ++ [(k, v)]

/-- `src/firebase_manager.py` line 77: `{**doc.to_dict(), 'id': doc.id}` —
the payload dict with the key `'id'` bound (last) to the document id. -/
def mkRecord (data : Fields) (docId : String) : Fields :=
  setItem data "id" docId

/-- A write operation added to a batch
(`batch.set` / `batch.update` / `batch.delete` of the driver). -/
inductive WriteOp where
  | set (collection docId : String) (fields : Fields)
  | update (collection docId : String) (fields : Fields)
  | del (collection docId : String)
deriving DecidableEq

/-- What the caller's code inside a `with get_batch_writer() as batch:` scope
does: it adds a sequence of operations to the yielded batch and then either
completes normally or raises an exception (carried as a message). -/
inductive BodyOutcome where
  | normal (ops : List WriteOp)
  | raises (ops : List WriteOp) (exc : String)
deriving DecidableEq

/-- Observable trace of one `get_batch_writer` scope. -/
structure BatchTrace where
  /-- contents of the batch when the scope starts (`self.db.batch()` yields a
  fresh, empty batch object every time). -/
  initialPending : List WriteOp
  /-- each `batch.commit()` call issued, with the operations it carries. -/
  commits : List (List WriteOp)
  /-- final value of the local `operations_count`. -/
  counterFinal : Nat
  /-- `none` if the scope exits normally, `some exc` if it re-raises `exc`. -/
  raised : Option String
deriving DecidableEq

/-- `FirebaseManager.get_batch_writer` (src/firebase_manager.py lines 54-67):

    batch = self.db.batch()
    operations_count = 0
    try:
        yield batch
        if operations_count > 0:
            batch.commit()
    except Exception as e:
        logger.error(...)
        raise

`batch_size` is a parameter of the source (default 500) that the body never
reads. `operations_count` is initialized to 0 and no statement increments it. -/
def get_batch_writer (batch_size : Nat) (body : BodyOutcome) : BatchTrace :=
  let batch : List WriteOp := []
  let operations_count : Nat := 0
  match body with
  | .normal ops =>
      if operations_count > 0 then
        { initialPending := batch, commits := [batch ++ ops],
          counterFinal := operations_count, raised := none }
      else
        { initialPending := batch, commits := [],
          counterFinal := operations_count, raised := none }
  | .raises ops exc =>
      { initialPending := batch, commits := [],
        counterFinal := operations_count, raised := some exc }

/-- Adding one operation inside the scope: the source yields the driver's raw
batch object, whose `set`/`update`/`delete` append unconditionally; no code in
`get_batch_writer` wraps them or checks any capacity (the `batch_size`
parameter is never read). -/
def batchAdd (pending : List WriteOp) (op : WriteOp) : List WriteOp :=
  pending ++ [op]

/-- C1: for every batch-writer scope that exits normally, zero commit calls
are issued and the internal operation counter stays 0 for the whole scope
(it is initialized to 0 and never incremented), even when write operations
were added to the yielded batch — in fact this holds for every scope,
normal or abnormal. -/
theorem C1_batch_writer_never_commits (batch_size : Nat) (body : BodyOutcome) :
    (get_batch_writer batch_size body).commits = [] ∧
    (get_batch_writer batch_size body).counterFinal = 0 := by
  cases body <;> simp [get_batch_writer]

/-- C2, code behavior at the failing input: a scope that adds exactly 3 write
operations and exits normally issues zero commit calls (the claim's intended
behavior — exactly one commit carrying the 3 operations — does not happen,
because `operations_count` is never incremented). -/
theorem C2_three_adds_zero_commits :
    (get_batch_writer 500 (.normal
      [.set "acdgp_modules" "m1" [("k", "v1")],
       .update "acdgp_modules" "m2" [("k", "v2")],
       .del "acdgp_modules" "m3"])).commits = [] ∧
    (get_batch_writer 500 (.normal
      [.set "acdgp_modules" "m1" [("k", "v1")],
       .update "acdgp_modules" "m2" [("k", "v2")],
       .del "acdgp_modules" "m3"])).counterFinal = 0 := by
  constructor <;> rfl

/-- C4, code behavior at the failing input: with the source's default
`batch_size = 500` and 500 operations already pending, a further add appends
the operation (501 pending, nothing raised, pending mutated) — no
`CapacityError` exists anywhere in the source; moreover `batch_size` has no
effect at all on the scope's behavior. -/
theorem C4_add_beyond_capacity_appends :
    (batchAdd (List.replicate 500 (WriteOp.del "c" "d")) (WriteOp.del "c" "d")
      = List.replicate 501 (WriteOp.del "c" "d")) ∧
    (∀ bs1 bs2 : Nat, ∀ body : BodyOutcome,
      get_batch_writer bs1 body = get_batch_writer bs2 body) := by
  constructor
  · simp only [batchAdd]
    rw [show (501 : Nat) = 500 + 1 by norm_num]
    exact (List.replicate_succ' _ _).symm
  · intro bs1 bs2 body
    cases body <;> rfl

/-- C5: a scope in which an exception is raised after operations were added
issues zero commit calls and propagates the exception to the caller; the
pending operations are discarded — every later scope starts from a fresh,
empty batch, so nothing is carried over or retried. -/
theorem C5_exception_no_commit_discards (batch_size : Nat) (ops : List WriteOp)
    (exc : String) :
    (get_batch_writer batch_size (.raises ops exc)).commits = [] ∧
    (get_batch_writer batch_size (.raises ops exc)).raised = some exc ∧
    (∀ bs2 : Nat, ∀ body2 : BodyOutcome,
      (get_batch_writer bs2 body2).initialPending = []) := by
  refine ⟨rfl, rfl, ?_⟩
  intro bs2 body2
  cases body2 <;> rfl

/-- Result of one `doc_ref.get()` call against the store: the snapshot
carries whether the document exists, its payload, and its authoritative id. -/
structure DocumentSnapshot where
  docExists : Bool
  data : Fields
  docId : String
deriving DecidableEq

/-- Observable trace of one `get_document` call. -/
structure ReadTrace where
  /-- the value returned to the caller, or the exception propagated. -/
  result : Except String (Option Fields)
  /-- number of attempts actually performed (store calls made). -/
  attempts : Nat
  /-- arguments of the `time.sleep(2 ** attempt)` calls, in order. -/
  sleeps : List Nat
  /-- `logger.error` entries written on final failure: the reported attempt
  count together with the underlying cause. -/
  errorLog : List (Nat × String)

/-- The `for attempt in range(max_retries)` loop of
`FirebaseManager.get_document` (src/firebase_manager.py lines 69-83), with the
store's behavior on each attempt injected as `store`:

    for attempt in range(max_retries):
        try:
            doc = self.db.collection(collection).document(doc_id).get()
            if doc.exists:
                return {**doc.to_dict(), 'id': doc.id}
            return None
        except Exception as e:
            if attempt == max_retries - 1:
                logger.error(f"... after {max_retries} attempts: ...")
                raise
            time.sleep(2 ** attempt)

Falling off the loop (only possible when `max_retries = 0`) returns `None`. -/
def get_document_loop (store : Nat → Except String DocumentSnapshot)
    (max_retries attempt : Nat) : ReadTrace :=
  if h : attempt < max_retries then
    match store attempt with
    | .ok doc =>
        if doc.docExists then
          { result := .ok (some (mkRecord doc.data doc.docId)),
            attempts := 1, sleeps := [], errorLog := [] }
        else
          { result := .ok none, attempts := 1, sleeps := [], errorLog := [] }
    | .error e =>
        if attempt = max_retries - 1 then
          { result := .error e, attempts := 1, sleeps := [],
            errorLog := [(max_retries, e)] }
        else
          let rest := get_document_loop store max_retries (attempt + 1)
          { result := rest.result, attempts := rest.attempts + 1,
            sleeps := 2 ^ attempt :: rest.sleeps, errorLog := rest.errorLog }
  else
    { result := .ok none, attempts := 0, sleeps := [], errorLog := [] }
termination_by max_retries - attempt
decreasing_by omega

/-- `FirebaseManager.get_document`: the source fixes `max_retries = 3`
(three attempts in total, i.e. two retries) and starts the loop at attempt 0. -/
def get_document (store : Nat → Except String DocumentSnapshot) : ReadTrace :=
  let max_retries := 3
  get_document_loop store max_retries 0

/-- C3: when every attempt raises a transient fault, `get_document` performs
exactly 3 attempts in total (the source's fixed policy: maxRetries = 2
retries, hence maxRetries + 1 = 3 attempts), sleeps `2 ^ attempt` time units
between consecutive attempts starting at attempt 0 (sleeps 1 and 2, below any
fixed ceiling ≥ 2), and then fails: the propagated error carries the
underlying cause of the last attempt, and the failure log entry carries the
attempt count 3 with that cause. -/
theorem C3_all_attempts_fail_read_error
    (store : Nat → Except String DocumentSnapshot) (cause : Nat → String)
    (h : ∀ n, store n = .error (cause n)) :
    (get_document store).attempts = 2 + 1 ∧
    (get_document store).sleeps = [2 ^ 0, 2 ^ 1] ∧
    (get_document store).result = .error (cause 2) ∧
    (get_document store).errorLog = [(3, cause 2)] := by
  have e0 := h 0
  have e1 := h 1
  have e2 := h 2
  simp [get_document, get_document_loop, e0, e1, e2]

/-- C3 witness: a concrete store that faults on every attempt. -/
theorem C3_all_attempts_fail_read_error_witness :
    (get_document (fun _ => .error "transient")).attempts = 2 + 1 ∧
    (get_document (fun _ => .error "transient")).sleeps = [2 ^ 0, 2 ^ 1] ∧
    (get_document (fun _ => .error "transient")).result = .error "transient" ∧
    (get_document (fun _ => .error "transient")).errorLog = [(3, "transient")] :=
  C3_all_attempts_fail_read_error (fun _ => .error "transient")
    (fun _ => "transient") (fun _ => rfl)

/-- C6: when the store's first response confirms the document does not exist,
`get_document` returns `None` on that first attempt: one attempt in total,
zero retries, zero backoff sleeps, nothing logged as an error. -/
theorem C6_nonexistent_returns_none_immediately
    (store : Nat → Except String DocumentSnapshot) (snap : DocumentSnapshot)
    (h0 : store 0 = .ok snap) (hne : snap.docExists = false) :
    (get_document store).result = .ok none ∧
    (get_document store).attempts = 1 ∧
    (get_document store).sleeps = [] ∧
    (get_document store).errorLog = [] := by
  simp [get_document, get_document_loop, h0, hne]

/-- C6 witness: a concrete store whose first response is a non-existent
document. -/
theorem C6_nonexistent_returns_none_immediately_witness :
    (get_document (fun _ => .ok ⟨false, [], "missing-doc"⟩)).result = .ok none ∧
    (get_document (fun _ => .ok ⟨false, [], "missing-doc"⟩)).attempts = 1 ∧
    (get_document (fun _ => .ok ⟨false, [], "missing-doc"⟩)).sleeps = [] ∧
    (get_document (fun _ => .ok ⟨false, [], "missing-doc"⟩)).errorLog = [] :=
  C6_nonexistent_returns_none_immediately _ ⟨false, [], "missing-doc"⟩ rfl rfl

/-- The class-level state of `FirebaseManager`: `cls._instance` (embedded as
the id of the created instance, if any), a freshness supply for instance ids,
and the number of `firestore.client()` store clients created so far by
`_initialize`. -/
structure ManagerState where
  instanceSlot : Option Nat
  nextId : Nat
  clientsCreated : Nat
deriving DecidableEq

/-- The process starts with no instance and no store client. -/
def initialManagerState : ManagerState :=
  { instanceSlot := none, nextId := 0, clientsCreated := 0 }

/-- `FirebaseManager.__new__` (src/firebase_manager.py lines 26-30): if
`cls._instance is None`, allocate a fresh instance, run `_initialize` (which
creates one `firestore.client()`), and store it in `cls._instance`; otherwise
return the stored instance unchanged. Returns (returned instance, new state). -/
def FirebaseManager.new (s : ManagerState) : Nat × ManagerState :=
  match s.instanceSlot with
  | none =>
      (s.nextId,
       { instanceSlot := some s.nextId, nextId := s.nextId + 1,
         clientsCreated := s.clientsCreated + 1 })
  | some i => (i, s)

/-- `N` successive constructions `FirebaseManager()`: the list of returned
instances and the final class-level state. -/
def newCalls : Nat → ManagerState → List Nat × ManagerState
  | 0, s => ([], s)
  | n + 1, s =>
      let r := FirebaseManager.new s
      let rest := newCalls n r.2
      (r.1 :: rest.1, rest.2)

theorem newCalls_of_filled (n i nid c : Nat) :
    newCalls n ⟨some i, nid, c⟩ = (List.replicate n i, ⟨some i, nid, c⟩) := by
  induction n with
  | zero => rfl
  | succ k ih => simp [newCalls, FirebaseManager.new, ih, List.replicate_succ]

/-- C7: N constructions of the manager before any invalidation all return the
identical instance (the one allocated by the first call), and at most one
manager instance and one store client are ever created (exactly one as soon
as N ≥ 1). -/
theorem C7_singleton_manager (N : Nat) :
    (newCalls N initialManagerState).1 = List.replicate N 0 ∧
    (newCalls N initialManagerState).2.clientsCreated = min N 1 := by
  cases N with
  | zero => constructor <;> rfl
  | succ k =>
      have step :
          newCalls (k + 1) initialManagerState =
            (0 :: (newCalls k ⟨some 0, 1, 1⟩).1, (newCalls k ⟨some 0, 1, 1⟩).2) := rfl
      rw [step, newCalls_of_filled]
      refine ⟨by rw [List.replicate_succ], ?_⟩
      simp [Nat.min_def]

/-- `FirebaseConfig` (src/config.py): the fields the validation reads. The
source populates `project_id` and `credentials_path` from the environment
with defaults `"acdgp-default"` and `"./service-account-key.json"`. -/
structure FirebaseConfig where
  project_id : String
  credentials_path : String
deriving DecidableEq

/-- The error raised by `FirebaseConfig.validate`: a `ValueError` or a
`FileNotFoundError`, each carrying its message. -/
inductive ConfigError where
  | valueError (msg : String)
  | fileNotFoundError (msg : String)
deriving DecidableEq

/-- `FirebaseConfig.validate` (src/config.py lines 22-28), with the
filesystem's existence check injected as `pathExists`:

    if not self.project_id:
        raise ValueError("FIREBASE_PROJECT_ID must be set")
    if not os.path.exists(self.credentials_path):
        raise FileNotFoundError(f"Firebase credentials not found at {self.credentials_path}")
    return True

(In Python, `not self.project_id` is true exactly when the string is empty.) -/
def FirebaseConfig.validate (cfg : FirebaseConfig) (pathExists : String → Bool) :
    Except ConfigError Bool :=
  if cfg.project_id = "" then
    .error (.valueError "FIREBASE_PROJECT_ID must be set")
  else if !(pathExists cfg.credentials_path) then
    .error (.fileNotFoundError
      ("Firebase credentials not found at " ++ cfg.credentials_path))
  else
    .ok true

/-- Startup ordering (src/config.py line 63 and src/firebase_manager.py):
the module-level `CONFIG = ACDGPConfig()` runs `validate_all` — hence
`FirebaseConfig.validate` — at import time; only if it succeeds does the
process go on to construct the `FirebaseManager` (and thus attempt any
connection). Validation itself performs no network I/O: it consults only the
configuration values and the filesystem predicate. -/
def processStartup (cfg : FirebaseConfig) (pathExists : String → Bool) :
    Except ConfigError ManagerState :=
  match cfg.validate pathExists with
  | .error e => .error e
  | .ok _ => .ok initialManagerState

/-- C8: configuration validation fails exactly when the project identity is
empty or the credential path does not exist; the error names the missing
material (the `FIREBASE_PROJECT_ID` field, resp. the credential path); with a
non-empty project id and an existing credential file it succeeds; and any
validation failure aborts startup before a manager (or any store client)
exists — no connection attempt is made. -/
theorem C8_config_validation (cfg : FirebaseConfig) (pathExists : String → Bool) :
    (cfg.validate pathExists = .ok true ↔
      (cfg.project_id ≠ "" ∧ pathExists cfg.credentials_path = true)) ∧
    (cfg.project_id = "" →
      cfg.validate pathExists =
        .error (.valueError "FIREBASE_PROJECT_ID must be set")) ∧
    (cfg.project_id ≠ "" → pathExists cfg.credentials_path = false →
      cfg.validate pathExists =
        .error (.fileNotFoundError
          ("Firebase credentials not found at " ++ cfg.credentials_path))) ∧
    (∀ e : ConfigError, cfg.validate pathExists = .error e →
      processStartup cfg pathExists = .error e) := by
  by_cases hp : cfg.project_id = "" <;>
    cases hq : pathExists cfg.credentials_path <;>
      simp [FirebaseConfig.validate, processStartup, hp, hq]

/-- C8 witness: the defaults with an existing credential file validate to
`.ok true`; an empty project id fails naming `FIREBASE_PROJECT_ID`; a missing
credential file fails naming the path and aborts startup. -/
theorem C8_config_validation_witness :
    (FirebaseConfig.validate ⟨"acdgp-default", "./service-account-key.json"⟩
        (fun _ => true) = .ok true) ∧
    (FirebaseConfig.validate ⟨"", "./service-account-key.json"⟩ (fun _ => true) =
      .error (.valueError "FIREBASE_PROJECT_ID must be set")) ∧
    (processStartup ⟨"acdgp-default", "./service-account-key.json"⟩
        (fun _ => false) =
      .error (.fileNotFoundError
        "Firebase credentials not found at ./service-account-key.json")) := by
  refine ⟨?_, ?_, ?_⟩
  · exact (C8_config_validation ⟨"acdgp-default", "./service-account-key.json"⟩
      (fun _ => true)).1.mpr ⟨by decide, rfl⟩
  · exact (C8_config_validation ⟨"", "./service-account-key.json"⟩
      (fun _ => true)).2.1 rfl
  · exact (C8_config_validation ⟨"acdgp-default", "./service-account-key.json"⟩
      (fun _ => false)).2.2.2 _
      ((C8_config_validation ⟨"acdgp-default", "./service-account-key.json"⟩
        (fun _ => false)).2.2.1 (by decide) rfl)

theorem getField_cons_of_ne (hd : String × String) (tl : Fields) (k : String)
    (hbk : (hd.1 == k) = false) : getField (hd :: tl) k = getField tl k := by
  unfold getField
  rw [List.find?_cons_of_neg]
  simp [hbk]

theorem getField_map_overwrite (k v : String) (fs : Fields)
    (h : (fs.map Prod.fst).contains k = true) :
    getField (fs.map (fun p => if p.1 == k then (k, v) else p)) k = some v := by
  induction fs with
  | nil => simp at h
  | cons hd tl ih =>
      by_cases hak : hd.1 = k
      · rw [List.map_cons, if_pos (by simp [hak] : (hd.1 == k) = true)]
        simp [getField, List.find?]
      · have hbk : (hd.1 == k) = false := by simp [hak]
        have h' : (tl.map Prod.fst).contains k = true := by
          simp [List.contains_cons] at h ⊢
          rcases h with h | h
          · exact absurd h.symm hak
          · exact h
        rw [List.map_cons, if_neg (by simp [hbk] : ¬ (hd.1 == k) = true),
          getField_cons_of_ne hd _ k hbk]
        exact ih h'

theorem getField_append_new (k v : String) (fs : Fields)
    (h : (fs.map Prod.fst).contains k = false) :
    getField (fs ++ [(k, v)]) k = some v := by
  induction fs with
  | nil => simp [getField, List.find?]
  | cons hd tl ih =>
      have hak : ¬ hd.1 = k := by
        intro hk
        simp [List.contains_cons, hk] at h
      have h1 : (tl.map Prod.fst).contains k = false := by
        simp [List.contains_cons] at h ⊢
        exact h.2
      have hbk : (hd.1 == k) = false := by simp [hak]
      rw [List.cons_append, getField_cons_of_ne hd _ k hbk]
      exact ih h1

/-- Looking up `"id"` in `{**data, 'id': docId}` always yields `docId`,
whether or not the payload already had an `"id"` key. -/
theorem getField_setItem (fs : Fields) (k v : String) :
    getField (setItem fs k v) k = some v := by
  unfold setItem
  cases h : (fs.map Prod.fst).contains k with
  | true => simpa [h] using getField_map_overwrite k v fs h
  | false => simpa [h] using getField_append_new k v fs h

/-- C10: for every existing document returned by `get_document`, the `"id"`
field of the returned record is the authoritative document id reported by the
store — even when the raw payload itself contains a field named `"id"`, which
is shadowed by the `'id': doc.id` binding written last in
`{**doc.to_dict(), 'id': doc.id}`. -/
theorem C10_payload_id_shadowed
    (store : Nat → Except String DocumentSnapshot) (snap : DocumentSnapshot)
    (h0 : store 0 = .ok snap) (hex : snap.docExists = true) :
    (get_document store).result = .ok (some (mkRecord snap.data snap.docId)) ∧
    getField (mkRecord snap.data snap.docId) "id" = some snap.docId := by
  constructor
  · simp [get_document, get_document_loop, h0, hex]
  · exact getField_setItem snap.data "id" snap.docId

/-- C10 witness: a concrete existing document whose payload spoofs an `"id"`
field; the returned record's `"id"` is the authoritative one. -/
theorem C10_payload_id_shadowed_witness :
    (get_document
        (fun _ => .ok ⟨true, [("id", "spoofed"), ("x", "1")], "real-id"⟩)).result
      = .ok (some (mkRecord [("id", "spoofed"), ("x", "1")] "real-id")) ∧
    getField (mkRecord [("id", "spoofed"), ("x", "1")] "real-id") "id"
      = some "real-id" :=
  C10_payload_id_shadowed _ ⟨true, [("id", "spoofed"), ("x", "1")], "real-id"⟩
    rfl rfl
